import Mathlib

/-!
Verification development for the TSV-to-YAML converter.

The Python source is shallowly embedded: each definition below mirrors one
function of the repository (module and line references in the doc comments).
Cells are `Option String` (`none` models the pandas NaN missing sentinel;
with `dtype=str` every present cell is a string).  Fallible Python code
(unguarded `int(...)` conversions, pydantic validation) is modelled with
`Except`.

Abstractions (noted where they matter): Python's `str.strip`/`lower`/`upper`
are modelled on the ASCII range (the repository's column values are ASCII);
PEP 515 underscore separators in numeric literals and IEEE-754 rounding of
`float(...)` at more than 15 significant digits are not modelled; `float`
infinity/NaN inputs are treated as parse failures.
-/

namespace TsvToYaml

/-! ## Python string primitives -/

/-- Whitespace stripped by Python `str.strip()` (ASCII subset). -/
def isPySpace (c : Char) : Bool :=
  c = ' ' || c = '\t' || c = '\n' || c = '\x0d' || c = '\x0b' || c = '\x0c'

/-- Python `str.strip()` on the character list. -/
def pyStripList (cs : List Char) : List Char :=
  ((cs.dropWhile isPySpace).reverse.dropWhile isPySpace).reverse

/-- Python `value.strip()`. -/
def pyStrip (s : String) : String := String.mk (pyStripList s.data)

/-- The byte-order-mark character U+FEFF. -/
def bomChar : Char := '\uFEFF'

/-- The zero-width-space character U+200B. -/
def zwspChar : Char := '\u200B'

/-- Removal of every byte-order-mark and zero-width-space character, as in
`value.strip().replace(bom, "").replace(zwsp, "")` (tsv_reader.py:30). -/
def removeInvisibles (s : String) : String :=
  String.mk (s.data.filter (fun c => !(c = bomChar || c = zwspChar)))

/-- Byte-order-mark removal `str(x).replace(bom, "")` as used at
data_processor.py:71. -/
def removeBom (s : String) : String :=
  String.mk (s.data.filter (fun c => !(c = bomChar)))

/-- Python truthiness of an optional string: `bool(x)` is `False` for
`None` and for the empty string. -/
def truthyStr (v : Option String) : Bool :=
  match v with
  | some s => s ≠ ""
  | none => false

/-- ASCII `str.lower()` on one character. -/
def pyCharLower (c : Char) : Char :=
  if 'A' ≤ c ∧ c ≤ 'Z' then Char.ofNat (c.toNat + 32) else c

/-- ASCII `str.upper()` on one character. -/
def pyCharUpper (c : Char) : Char :=
  if 'a' ≤ c ∧ c ≤ 'z' then Char.ofNat (c.toNat - 32) else c

/-- Python `str.lower()` (ASCII range). -/
def pyLower (s : String) : String := String.mk (s.data.map pyCharLower)

/-- Python `str.capitalize()`: first character uppercased, the rest
lowercased (ASCII range). -/
def pyCapitalize (s : String) : String :=
  match s.data with
  | [] => ""
  | c :: t => String.mk (pyCharUpper c :: t.map pyCharLower)

/-- Python `value.replace("_", " ")` (single-character pattern). -/
def pyReplaceUnderscore (s : String) : String :=
  String.mk (s.data.map (fun c => if c = '_' then ' ' else c))

/-! ## Python numeric parsing -/

/-- Decimal digit value. -/
def digitVal (c : Char) : Option Nat :=
  if c.isDigit then some (c.toNat - '0'.toNat) else none

/-- Accumulate decimal digits; fails on any non-digit. -/
def digitsToNatAux : List Char → Nat → Option Nat
  | [], acc => some acc
  | c :: t, acc =>
    match digitVal c with
    | some d => digitsToNatAux t (acc * 10 + d)
    | none => none

/-- A non-empty all-digit run as a natural number. -/
def digitsToNat (cs : List Char) : Option Nat :=
  if cs.isEmpty then none else digitsToNatAux cs 0

/-- Optional leading sign; returns (isNegative, rest). -/
def parseSign : List Char → Bool × List Char
  | '+' :: t => (false, t)
  | '-' :: t => (true, t)
  | cs => (false, cs)

/-- Python `int(s)` on a string: optional surrounding whitespace, optional
sign, then a non-empty digit run.  Returns `none` where `int` raises
`ValueError` (e.g. on `"2.0"` or `"abc"`).  PEP 515 underscores are not
modelled. -/
def parsePyInt (s : String) : Option Int :=
  let cs := pyStripList s.data
  let (neg, body) := parseSign cs
  match digitsToNat body with
  | some n => some (if neg then -(n : Int) else (n : Int))
  | none => none

/-- Mantissa of a Python float literal: `digits`, `digits.`, `digits.digits`
or `.digits`.  Returns (digit value, number of fractional digits, rest). -/
def parseMantissa (cs : List Char) : Option (Nat × Nat × List Char) :=
  let ip := cs.takeWhile Char.isDigit
  let rest := cs.dropWhile Char.isDigit
  match rest with
  | '.' :: r2 =>
    let fp := r2.takeWhile Char.isDigit
    let rest2 := r2.dropWhile Char.isDigit
    if ip.isEmpty && fp.isEmpty then none
    else some ((digitsToNatAux (ip ++ fp) 0).getD 0, fp.length, rest2)
  | _ =>
    match digitsToNat ip with
    | some n => some (n, 0, rest)
    | none => none

/-- Optional exponent suffix `e`/`E`, sign, digits. -/
def parseExp : List Char → Option Int
  | [] => some 0
  | c :: t =>
    if c = 'e' || c = 'E' then
      let (neg, body) := parseSign t
      match digitsToNat body with
      | some n => some (if neg then -(n : Int) else (n : Int))
      | none => none
    else none

/-- Python `int(float(s))`: parse a decimal floating literal and truncate
toward zero.  Returns `none` where `float(s)` raises `ValueError`
(data_processor.py:63 wraps this in `try/except`).  `inf`/`nan` and float
rounding beyond 15 significant digits are not modelled. -/
def pyFloatToInt (s : String) : Option Int :=
  let cs := pyStripList s.data
  let (neg, body) := parseSign cs
  match parseMantissa body with
  | none => none
  | some (m, fracLen, rest) =>
    match parseExp rest with
    | none => none
    | some e =>
      let shift : Int := e - (fracLen : Int)
      let mag : Nat := if 0 ≤ shift then m * 10 ^ shift.toNat else m / 10 ^ (-shift).toNat
      some (if neg then -(mag : Int) else (mag : Int))

/-! ## Cell Normalizer (tsv_reader.py) -/

/-- Field-mapping tables: column name to (raw code to label) pairs,
as a Python dict of dicts (`TSVReader.field_mappings`). -/
abbrev Mappings := List (String × List (String × String))

/-- First-match association lookup, Python `dict.get`. -/
def lookupAssoc {α : Type} : List (String × α) → String → Option α
  | [], _ => none
  | (k, v) :: t, q => if k = q then some v else lookupAssoc t q

/-- `TSVReader._apply_field_mapping` (tsv_reader.py:44-50):
`self.field_mappings.get(field_name, {}).get(value, None)`. -/
def applyFieldMapping (m : Mappings) (field : String) (value : String) : Option String :=
  lookupAssoc ((lookupAssoc m field).getD []) value

/-- `TSVReader.clean_value` (tsv_reader.py:23-42).  `none` models both the
pandas NaN sentinel and Python `None`.  The guard `if field_name and
self.field_mappings` and the truthiness test `if mapped_value` are kept:
an empty mapped label falls through to the cleaned value. -/
def cleanValue (m : Mappings) (field : String) (v : Option String) : Option String :=
  match v with
  | none => none
  | some s =>
    if pyStrip s = "" then none
    else
      let cleaned := removeInvisibles (pyStrip s)
      if cleaned = "" then none
      else if field ≠ "" ∧ m ≠ [] then
        match applyFieldMapping m field cleaned with
        | some mv => if mv ≠ "" then some mv else some cleaned
        | none => some cleaned
      else some cleaned

/-! ## Rows -/

/-- One input record: the recognized columns of the fixed vocabulary, each
cell an optional string (`none` = missing sentinel).  Lean field names map
to TSV column names: `light_sources` is column `LIGHT_SOURCE(S)`,
`specific_area` is `SPECIFIC AREA`, `in_time`/`out_time` are `IN`/`OUT`;
the rest match their upper-case column names. -/
structure Row where
  phase_num : Option String := none
  phase_start : Option String := none
  phase_end : Option String := none
  scene_num : Option String := none
  scene_context_comment : Option String := none
  period : Option String := none
  season : Option String := none
  weather : Option String := none
  loc_type : Option String := none
  location : Option String := none
  diurnal : Option String := none
  light_sources : Option String := none
  shot_num : Option String := none
  angle : Option String := none
  specific_area : Option String := none
  shot_description : Option String := none
  move_speed : Option String := none
  move_type : Option String := none
  video_prompt : Option String := none
  in_time : Option String := none
  out_time : Option String := none
  image_prompt : Option String := none
  oref : Option String := none
deriving DecidableEq, Repr

/-- `TSVReader.clean_row_data` (tsv_reader.py:52-54): clean every cell with
its column name. -/
def cleanRow (m : Mappings) (r : Row) : Row where
  phase_num := cleanValue m "PHASE_NUM" r.phase_num
  phase_start := cleanValue m "PHASE_START" r.phase_start
  phase_end := cleanValue m "PHASE_END" r.phase_end
  scene_num := cleanValue m "SCENE_NUM" r.scene_num
  scene_context_comment := cleanValue m "SCENE_CONTEXT_COMMENT" r.scene_context_comment
  period := cleanValue m "PERIOD" r.period
  season := cleanValue m "SEASON" r.season
  weather := cleanValue m "WEATHER" r.weather
  loc_type := cleanValue m "LOC_TYPE" r.loc_type
  location := cleanValue m "LOCATION" r.location
  diurnal := cleanValue m "DIURNAL" r.diurnal
  light_sources := cleanValue m "LIGHT_SOURCE(S)" r.light_sources
  shot_num := cleanValue m "SHOT_NUM" r.shot_num
  angle := cleanValue m "ANGLE" r.angle
  specific_area := cleanValue m "SPECIFIC AREA" r.specific_area
  shot_description := cleanValue m "SHOT_DESCRIPTION" r.shot_description
  move_speed := cleanValue m "MOVE_SPEED" r.move_speed
  move_type := cleanValue m "MOVE_TYPE" r.move_type
  video_prompt := cleanValue m "VIDEO_PROMPT" r.video_prompt
  in_time := cleanValue m "IN" r.in_time
  out_time := cleanValue m "OUT" r.out_time
  image_prompt := cleanValue m "IMAGE_PROMPT" r.image_prompt
  oref := cleanValue m "OREF" r.oref

/-- `TSVReader.is_valid_row` (tsv_reader.py:56-58):
`bool(row_data.get("SHOT_NUM"))`. -/
def isValidRow (rd : Row) : Bool := truthyStr rd.shot_num

/-! ## Intermediate keyed tree (the dict-of-dicts built by the Grouper) -/

/-- `phases_dict[p]["time_period"]`. -/
structure TimePeriodData where
  start : Option Int
  stop : Option Int
deriving DecidableEq, Repr

/-- The `camera_movement` sub-dict of a shot dict. -/
structure CameraMovementData where
  speed : Option String
  type : Option String
  video_prompt : Option String
deriving DecidableEq, Repr

/-- The `shot_timecode` sub-dict of a shot dict. -/
structure ShotTimecodeData where
  in_time : Option String
  out_time : Option String
deriving DecidableEq, Repr

/-- The shot dict built by `_create_shot_data` (data_processor.py:151-179).
`oref = some v` models the key being present in the dict. -/
structure ShotData where
  shot_number : Int
  camera_angle : Option String
  specific_area : Option String
  description : Option String
  camera_movement : CameraMovementData
  shot_timecode : ShotTimecodeData
  image_prompt : Option String
  oref : Option String
deriving DecidableEq, Repr

/-- The scene dict built by `_ensure_scene_exists` (data_processor.py:113-137). -/
structure SceneData where
  scene_number : Int
  comment : Option String
  period : Option String
  season : Option String
  weather : Option String
  loc_type : Option String
  location_name : Option String
  diurnal : Option String
  light_source : Option String
  shots : List ShotData
deriving DecidableEq, Repr

/-- The phase dict built by `_ensure_phase_exists` (data_processor.py:91-111).
Scenes are an insertion-ordered dict keyed by scene number. -/
structure PhaseData where
  phase_number : Int
  time_period : TimePeriodData
  scenes : List (Int × SceneData)
deriving DecidableEq, Repr

/-- The insertion-ordered `phases_dict` keyed by phase number. -/
abbrev PhasesDict := List (Int × PhaseData)

/-- Dict lookup by integer key (first match). -/
def lookupKey {α : Type} : List (Int × α) → Int → Option α
  | [], _ => none
  | (k, v) :: t, q => if k = q then some v else lookupKey t q

/-- In-place update of the entry at a key (first match), `d[k] = f d[k]`. -/
def updateKey {α : Type} : List (Int × α) → Int → (α → α) → List (Int × α)
  | [], _, _ => []
  | (k, v) :: t, q, f => if k = q then (k, f v) :: t else (k, v) :: updateKey t q f

/-- Errors that escape the fold: `ValueError` from an unguarded `int(...)`
conversion, or a pydantic `ValidationError` during materialization. -/
inductive ConvErr where
  | intParse (s : String)
  | validation (msg : String)
deriving DecidableEq, Repr

/-! ## Row Grouper / Folder (data_processor.py) -/

/-- The field names receiving sentence-case formatting
(data_processor.py:31-39). -/
def formattedFields : List String :=
  ["location_name", "specific_area", "period", "season", "weather", "speed", "type"]

/-- `DataProcessor._format_value` (data_processor.py:25-44):
`value.replace("_", " ").lower().capitalize()` for the listed fields,
identity otherwise; falsy values (`None`, `""`) pass through. -/
def formatValue (v : Option String) (field : String) : Option String :=
  match v with
  | none => none
  | some s =>
    if s = "" then some s
    else if field ∈ formattedFields then
      some (pyCapitalize (pyLower (pyReplaceUnderscore s)))
    else some s

/-- `DataProcessor._create_shot_data` (data_processor.py:151-179).  The
`oref` key is added only when the cleaned value equals the literal
`"TRUE"`. -/
def createShotData (shot_num : Int) (rd : Row) : ShotData where
  shot_number := shot_num
  camera_angle := rd.angle
  specific_area := formatValue rd.specific_area "specific_area"
  description := rd.shot_description
  camera_movement :=
    { speed := formatValue rd.move_speed "speed"
      type := formatValue rd.move_type "type"
      video_prompt := rd.video_prompt }
  shot_timecode := { in_time := rd.in_time, out_time := rd.out_time }
  image_prompt := rd.image_prompt
  oref := if rd.oref = some "TRUE" then rd.oref else none

/-- `int(row_data[F]) if row_data.get(F) else None` as at
data_processor.py:99-108: an unguarded `int` conversion on a truthy cell. -/
def parseOptIntField (v : Option String) : Except ConvErr (Option Int) :=
  match v with
  | none => .ok none
  | some s =>
    if s = "" then .ok none
    else
      match parsePyInt s with
      | some n => .ok (some n)
      | none => .error (.intParse s)

/-- `DataProcessor._ensure_phase_exists` (data_processor.py:91-111): insert
a fresh phase dict seeded from this row, only if the key is absent. -/
def ensurePhaseExists (phases : PhasesDict) (p : Int) (rd : Row) : Except ConvErr PhasesDict :=
  if (lookupKey phases p).isSome then .ok phases
  else
    match parseOptIntField rd.phase_start with
    | .error e => .error e
    | .ok s =>
      match parseOptIntField rd.phase_end with
      | .error e => .error e
      | .ok e =>
        .ok (phases ++ [(p, { phase_number := p
                              time_period := { start := s, stop := e }
                              scenes := [] })])

/-- The scene dict literal of `_ensure_scene_exists` (data_processor.py:122-137). -/
def createSceneData (c : Int) (rd : Row) : SceneData where
  scene_number := c
  comment := rd.scene_context_comment
  period := formatValue rd.period "period"
  season := formatValue rd.season "season"
  weather := formatValue rd.weather "weather"
  loc_type := rd.loc_type
  location_name := formatValue rd.location "location_name"
  diurnal := rd.diurnal
  light_source := rd.light_sources
  shots := []

/-- `DataProcessor._ensure_scene_exists` (data_processor.py:113-137). -/
def ensureSceneExists (phases : PhasesDict) (p c : Int) (rd : Row) : PhasesDict :=
  updateKey phases p (fun ph =>
    if (lookupKey ph.scenes c).isSome then ph
    else { ph with scenes := ph.scenes ++ [(c, createSceneData c rd)] })

/-- `DataProcessor._add_shot_to_scene` (data_processor.py:139-149). -/
def addShotToScene (phases : PhasesDict) (p c : Int) (sd : ShotData) : PhasesDict :=
  updateKey phases p (fun ph =>
    { ph with scenes := updateKey ph.scenes c (fun sc =>
        { sc with shots := sc.shots ++ [sd] }) })

/-- `DataProcessor._process_row_data` (data_processor.py:78-89). -/
def processRowData (phases : PhasesDict) (rd : Row) (p c shot : Int) :
    Except ConvErr PhasesDict :=
  match ensurePhaseExists phases p rd with
  | .error e => .error e
  | .ok ph1 => .ok (addShotToScene (ensureSceneExists ph1 p c rd) p c (createShotData shot rd))

/-- Carry-forward state of the fold: `current_phase`, `current_scene` and
the accumulating `phases_dict` (data_processor.py:48-50). -/
structure FoldState where
  curPhase : Option Int
  curScene : Option Int
  phases : PhasesDict
deriving DecidableEq, Repr

/-- `if row_data.get("PHASE_NUM"): current_phase = int(row_data["PHASE_NUM"])`
(data_processor.py:59-60).  The `int` conversion is unguarded: an
unparseable truthy cell raises. -/
def phaseUpdate (cur : Option Int) (v : Option String) : Except ConvErr (Option Int) :=
  match v with
  | none => .ok cur
  | some s =>
    if s = "" then .ok cur
    else
      match parsePyInt s with
      | some n => .ok (some n)
      | none => .error (.intParse s)

/-- `if row_data.get("SCENE_NUM"): try: current_scene = int(float(...))
except (ValueError, TypeError): continue` (data_processor.py:61-66).
`none` means the row is skipped (`continue`); `some cs` is the new
`current_scene`. -/
def sceneUpdate (cur : Option Int) (v : Option String) : Option (Option Int) :=
  match v with
  | none => some cur
  | some s =>
    if s = "" then some cur
    else
      match pyFloatToInt s with
      | some n => some (some n)
      | none => none

/-- One iteration of the loop body of `DataProcessor.process_tsv_data`
(data_processor.py:52-74): clean the row, validity gate, carry-forward
updates, resolution gate, shot-number conversion, then insertion. -/
def step (m : Mappings) (st : FoldState) (row : Row) : Except ConvErr FoldState :=
  let rd := cleanRow m row
  match rd.shot_num with
  | none => .ok st
  | some sv =>
    if sv = "" then .ok st
    else
      match phaseUpdate st.curPhase rd.phase_num with
      | .error e => .error e
      | .ok cp =>
        match sceneUpdate st.curScene rd.scene_num with
        | none => .ok ⟨cp, st.curScene, st.phases⟩
        | some cs =>
          match cp, cs with
          | some p, some c =>
            match parsePyInt (removeBom sv) with
            | none => .error (.intParse sv)
            | some shotNum =>
              match processRowData st.phases rd p c shotNum with
              | .error e => .error e
              | .ok phs => .ok ⟨some p, some c, phs⟩
          | _, _ => .ok ⟨cp, cs, st.phases⟩

/-- Initial fold state (data_processor.py:48-50). -/
def foldInit : FoldState := ⟨none, none, []⟩

/-- The fold over the rows from a given state. -/
def stepFold (m : Mappings) (st : FoldState) (rows : List Row) : Except ConvErr FoldState :=
  rows.foldlM (step m) st

/-- `DataProcessor.process_tsv_data` (data_processor.py:46-76). -/
def processTsvData (m : Mappings) (rows : List Row) : Except ConvErr PhasesDict :=
  (stepFold m foldInit rows).map (·.phases)

/-! ## Output models (models.py) and the Tree Materializer

The pydantic models of models.py.  In `Shot`, `camera_movement` and
`shot_timecode` are declared without a default (models.py:41-42), so
pydantic treats them as required: constructing a `Shot` without them
raises a `ValidationError`.  The Lean `Shot` carries them as `Option` so
that presence/absence in the finished model is expressible, and the
constructor function validates requiredness as pydantic does. -/

/-- models.py `ShotTimecode`. -/
structure ShotTimecode where
  in_time : Option String
  out_time : Option String
deriving DecidableEq, Repr

/-- models.py `CameraMovement`. -/
structure CameraMovement where
  speed : Option String
  type : Option String
  video_prompt : Option String
deriving DecidableEq, Repr

/-- models.py `Location`. -/
structure Location where
  type : Option String
  location_name : Option String
deriving DecidableEq, Repr

/-- models.py `Shot`. -/
structure Shot where
  shot_number : Int
  oref : Option String
  camera_angle : Option String
  specific_area : Option String
  description : Option String
  camera_movement : Option CameraMovement
  shot_timecode : Option ShotTimecode
  image_prompt : Option String
deriving DecidableEq, Repr

/-- models.py `Scene`. -/
structure Scene where
  scene_number : Int
  comment : Option String
  period : Option String
  season : Option String
  weather : Option String
  location : Location
  diurnal : Option String
  light_source : Option String
  shots : List Shot
deriving DecidableEq, Repr

/-- models.py `TimePeriod` (`stop` models the field named `end`). -/
structure TimePeriod where
  start : Option Int
  stop : Option Int
deriving DecidableEq, Repr

/-- models.py `Phase`. -/
structure Phase where
  phase_number : Int
  time_period : TimePeriod
  scenes : List Scene
deriving DecidableEq, Repr

/-- models.py `Project`. -/
structure Project where
  title : String
  total_shots : Int
  phases : List Phase
deriving DecidableEq, Repr

/-- `DataProcessor._create_shot_model` (data_processor.py:249-278).  The
`camera_movement` / `shot_timecode` kwargs are supplied only when not
excluded; `Shot(**shot_kwargs)` then validates: a missing required field
raises a pydantic `ValidationError`. -/
def createShotModel (sd : ShotData) (noCam noTc : Bool) : Except ConvErr Shot :=
  let cm : Option CameraMovement :=
    if noCam then none
    else some { speed := sd.camera_movement.speed
                type := sd.camera_movement.type
                video_prompt := sd.camera_movement.video_prompt }
  let tc : Option ShotTimecode :=
    if noTc then none
    else some { in_time := sd.shot_timecode.in_time, out_time := sd.shot_timecode.out_time }
  match cm, tc with
  | some cmv, some tcv =>
    .ok { shot_number := sd.shot_number
          oref := sd.oref
          camera_angle := sd.camera_angle
          specific_area := sd.specific_area
          description := sd.description
          camera_movement := some cmv
          shot_timecode := some tcv
          image_prompt := sd.image_prompt }
  | none, _ => .error (.validation "camera_movement: Field required")
  | _, none => .error (.validation "shot_timecode: Field required")

/-- `DataProcessor._create_scene_model` (data_processor.py:221-247). -/
def createSceneModel (sc : SceneData) (noCam noTc : Bool) : Except ConvErr Scene :=
  match sc.shots.mapM (fun sd => createShotModel sd noCam noTc) with
  | .error e => .error e
  | .ok shots =>
    .ok { scene_number := sc.scene_number
          comment := sc.comment
          period := sc.period
          season := sc.season
          weather := sc.weather
          location := { type := sc.loc_type, location_name := sc.location_name }
          diurnal := sc.diurnal
          light_source := sc.light_source
          shots := shots }

/-- `sorted(d.keys())` traversal of an insertion-ordered dict: stable sort
of the entries by ascending key. -/
def sortByKey {α : Type} (l : List (Int × α)) : List (Int × α) :=
  l.insertionSort (fun a b => a.1 ≤ b.1)

/-- `DataProcessor._create_phase_model` (data_processor.py:198-219):
scenes in ascending key order. -/
def createPhaseModel (pd : PhaseData) (noCam noTc : Bool) : Except ConvErr Phase :=
  match (sortByKey pd.scenes).mapM (fun kv => createSceneModel kv.2 noCam noTc) with
  | .error e => .error e
  | .ok scenes =>
    .ok { phase_number := pd.phase_number
          time_period := { start := pd.time_period.start, stop := pd.time_period.stop }
          scenes := scenes }

/-- `DataProcessor.build_project_structure` (data_processor.py:181-196):
phases appended to the project in ascending key order. -/
def buildProjectStructure (proj : Project) (phases : PhasesDict) (noCam noTc : Bool) :
    Except ConvErr Project :=
  match (sortByKey phases).mapM (fun kv => createPhaseModel kv.2 noCam noTc) with
  | .error e => .error e
  | .ok phs => .ok { proj with phases := proj.phases ++ phs }

/-- `DataProcessor.initialize_project` (data_processor.py:286-288). -/
def initializeProject (title : String) (total_shots : Int) : Project :=
  { title := title, total_shots := total_shots, phases := [] }

/-- The per-source conversion, after the rows have been read: the
orchestration of `convert_tsv_to_yaml` (converter.py:89-104) over the
`DataProcessor` components.  The project is initialized with
`len(df)` — the number of data rows read — as its total shot count
(converter.py:95). -/
def convertTsvToYaml (m : Mappings) (title : String) (noCam noTc : Bool)
    (rows : List Row) : Except ConvErr Project :=
  let proj := initializeProject title (rows.length : Int)
  match processTsvData m rows with
  | .error e => .error e
  | .ok phases => buildProjectStructure proj phases noCam noTc

/-! ## Serialization boundary (yaml_writer.py:28-38)

`project.model_dump(exclude_none=True)`: the recursive dict produced for
the YAML dumper, with every `None`-valued attribute omitted.  Keys follow
pydantic field declaration order. -/

/-- A YAML-ready value. -/
inductive Val where
  | str (s : String)
  | int (n : Int)
  | list (items : List Val)
  | obj (fields : List (String × Val))

/-- An optional string attribute under `exclude_none=True`: present only
when non-`None`. -/
def dumpOptStr (k : String) (v : Option String) : List (String × Val) :=
  match v with
  | none => []
  | some s => [(k, .str s)]

/-- An optional integer attribute under `exclude_none=True`. -/
def dumpOptInt (k : String) (v : Option Int) : List (String × Val) :=
  match v with
  | none => []
  | some n => [(k, .int n)]

/-- An optional sub-model attribute under `exclude_none=True`. -/
def dumpOptObj (k : String) (v : Option (List (String × Val))) : List (String × Val) :=
  match v with
  | none => []
  | some fs => [(k, .obj fs)]

/-- `ShotTimecode.model_dump(exclude_none=True)`. -/
def dumpShotTimecode (tc : ShotTimecode) : List (String × Val) :=
  dumpOptStr "in_time" tc.in_time ++ dumpOptStr "out_time" tc.out_time

/-- `CameraMovement.model_dump(exclude_none=True)`. -/
def dumpCameraMovement (cm : CameraMovement) : List (String × Val) :=
  dumpOptStr "speed" cm.speed ++ dumpOptStr "type" cm.type ++
    dumpOptStr "video_prompt" cm.video_prompt

/-- `Location.model_dump(exclude_none=True)`. -/
def dumpLocation (l : Location) : List (String × Val) :=
  dumpOptStr "type" l.type ++ dumpOptStr "location_name" l.location_name

/-- `Shot.model_dump(exclude_none=True)`. -/
def dumpShot (s : Shot) : List (String × Val) :=
  [("shot_number", .int s.shot_number)] ++
    dumpOptStr "oref" s.oref ++
    dumpOptStr "camera_angle" s.camera_angle ++
    dumpOptStr "specific_area" s.specific_area ++
    dumpOptStr "description" s.description ++
    dumpOptObj "camera_movement" (s.camera_movement.map dumpCameraMovement) ++
    dumpOptObj "shot_timecode" (s.shot_timecode.map dumpShotTimecode) ++
    dumpOptStr "image_prompt" s.image_prompt

/-- `Scene.model_dump(exclude_none=True)`; `location` and `shots` are
required fields and always rendered. -/
def dumpScene (sc : Scene) : List (String × Val) :=
  [("scene_number", .int sc.scene_number)] ++
    dumpOptStr "comment" sc.comment ++
    dumpOptStr "period" sc.period ++
    dumpOptStr "season" sc.season ++
    dumpOptStr "weather" sc.weather ++
    [("location", .obj (dumpLocation sc.location))] ++
    dumpOptStr "diurnal" sc.diurnal ++
    dumpOptStr "light_source" sc.light_source ++
    [("shots", .list (sc.shots.map (fun s => .obj (dumpShot s))))]

/-- `TimePeriod.model_dump(exclude_none=True)` (`stop` renders field `end`). -/
def dumpTimePeriod (tp : TimePeriod) : List (String × Val) :=
  dumpOptInt "start" tp.start ++ dumpOptInt "end" tp.stop

/-- `Phase.model_dump(exclude_none=True)`. -/
def dumpPhase (ph : Phase) : List (String × Val) :=
  [("phase_number", .int ph.phase_number),
   ("time_period", .obj (dumpTimePeriod ph.time_period)),
   ("scenes", .list (ph.scenes.map (fun sc => .obj (dumpScene sc))))]

/-- `Project.model_dump(exclude_none=True)` as handed to `yaml.dump`
(yaml_writer.py:31-38). -/
def dumpProject (p : Project) : List (String × Val) :=
  [("title", .str p.title),
   ("total_shots", .int p.total_shots),
   ("phases", .list (p.phases.map (fun ph => .obj (dumpPhase ph))))]

/-! ## Derived counts and spec-side observables -/

/-- Number of rows that pass the validity gate (non-absent cleaned
`SHOT_NUM`). -/
def countValidRows (m : Mappings) (rows : List Row) : Nat :=
  (rows.filter (fun r => isValidRow (cleanRow m r))).length

/-- Number of rows dropped at the validity gate. -/
def countInvalidRows (m : Mappings) (rows : List Row) : Nat :=
  (rows.filter (fun r => !isValidRow (cleanRow m r))).length

/-! ## Helper lemmas -/

theorem length_filter_add_length_filter_not {α : Type} (l : List α) (p : α → Bool) :
    (l.filter p).length + (l.filter (fun a => !p a)).length = l.length := by
  induction l with
  | nil => rfl
  | cons a t ih =>
    by_cases h : p a <;> simp [List.filter_cons, h] <;> omega

theorem mem_keys_dumpOptStr (k q : String) (v : Option String) :
    q ∈ (dumpOptStr k v).map Prod.fst ↔ (q = k ∧ v.isSome) := by
  cases v <;> simp [dumpOptStr]

theorem mem_keys_dumpOptInt (k q : String) (v : Option Int) :
    q ∈ (dumpOptInt k v).map Prod.fst ↔ (q = k ∧ v.isSome) := by
  cases v <;> simp [dumpOptInt]

theorem mem_keys_dumpOptObj (k q : String) (v : Option (List (String × Val))) :
    q ∈ (dumpOptObj k v).map Prod.fst ↔ (q = k ∧ v.isSome) := by
  cases v <;> simp [dumpOptObj]

theorem exists_mem_dumpOptStr (k q : String) (v : Option String) :
    (∃ x, (q, x) ∈ dumpOptStr k v) ↔ (q = k ∧ v.isSome) := by
  cases v <;> simp [dumpOptStr]

theorem exists_mem_dumpOptInt (k q : String) (v : Option Int) :
    (∃ x, (q, x) ∈ dumpOptInt k v) ↔ (q = k ∧ v.isSome) := by
  cases v <;> simp [dumpOptInt]

theorem exists_mem_dumpOptObj (k q : String) (v : Option (List (String × Val))) :
    (∃ x, (q, x) ∈ dumpOptObj k v) ↔ (q = k ∧ v.isSome) := by
  cases v <;> simp [dumpOptObj]

/-! ## Claim theorems -/

/-- C7: `clean_value` returns absent exactly for the missing sentinel, the
empty string, an all-whitespace string, or a string that trims and strips
(byte-order marks and zero-width spaces) to empty; and under
`model_dump(exclude_none=True)` an absent attribute key never appears in
the dumped document (shown for every optional attribute of Shot, Scene,
Location, CameraMovement, ShotTimecode and TimePeriod). -/
theorem c7_absence_normalization_and_rendering :
    (∀ m field, cleanValue m field none = none) ∧
    (∀ m field s, cleanValue m field (some s) = none ↔
      (s = "" ∨ pyStrip s = "" ∨ removeInvisibles (pyStrip s) = "")) ∧
    (∀ s : Shot,
      (("oref" ∈ (dumpShot s).map Prod.fst) ↔ s.oref.isSome) ∧
      (("camera_angle" ∈ (dumpShot s).map Prod.fst) ↔ s.camera_angle.isSome) ∧
      (("specific_area" ∈ (dumpShot s).map Prod.fst) ↔ s.specific_area.isSome) ∧
      (("description" ∈ (dumpShot s).map Prod.fst) ↔ s.description.isSome) ∧
      (("camera_movement" ∈ (dumpShot s).map Prod.fst) ↔ s.camera_movement.isSome) ∧
      (("shot_timecode" ∈ (dumpShot s).map Prod.fst) ↔ s.shot_timecode.isSome) ∧
      (("image_prompt" ∈ (dumpShot s).map Prod.fst) ↔ s.image_prompt.isSome)) ∧
    (∀ sc : Scene,
      (("comment" ∈ (dumpScene sc).map Prod.fst) ↔ sc.comment.isSome) ∧
      (("period" ∈ (dumpScene sc).map Prod.fst) ↔ sc.period.isSome) ∧
      (("season" ∈ (dumpScene sc).map Prod.fst) ↔ sc.season.isSome) ∧
      (("weather" ∈ (dumpScene sc).map Prod.fst) ↔ sc.weather.isSome) ∧
      (("diurnal" ∈ (dumpScene sc).map Prod.fst) ↔ sc.diurnal.isSome) ∧
      (("light_source" ∈ (dumpScene sc).map Prod.fst) ↔ sc.light_source.isSome)) ∧
    (∀ l : Location,
      (("type" ∈ (dumpLocation l).map Prod.fst) ↔ l.type.isSome) ∧
      (("location_name" ∈ (dumpLocation l).map Prod.fst) ↔ l.location_name.isSome)) ∧
    (∀ cm : CameraMovement,
      (("speed" ∈ (dumpCameraMovement cm).map Prod.fst) ↔ cm.speed.isSome) ∧
      (("type" ∈ (dumpCameraMovement cm).map Prod.fst) ↔ cm.type.isSome) ∧
      (("video_prompt" ∈ (dumpCameraMovement cm).map Prod.fst) ↔ cm.video_prompt.isSome)) ∧
    (∀ tc : ShotTimecode,
      (("in_time" ∈ (dumpShotTimecode tc).map Prod.fst) ↔ tc.in_time.isSome) ∧
      (("out_time" ∈ (dumpShotTimecode tc).map Prod.fst) ↔ tc.out_time.isSome)) ∧
    (∀ tp : TimePeriod,
      (("start" ∈ (dumpTimePeriod tp).map Prod.fst) ↔ tp.start.isSome) ∧
      (("end" ∈ (dumpTimePeriod tp).map Prod.fst) ↔ tp.stop.isSome)) := by
  refine ⟨fun m field => rfl, fun m field s => ?_, ?_, ?_, ?_, ?_, ?_, ?_⟩
  · by_cases h1 : pyStrip s = ""
    · simp [cleanValue, h1]
    · by_cases h2 : removeInvisibles (pyStrip s) = ""
      · simp [cleanValue, h1, h2]
      · have hsome : ∃ t, cleanValue m field (some s) = some t := by
          simp only [cleanValue, if_neg h1, if_neg h2]
          split
          · split
            · split <;> exact ⟨_, rfl⟩
            · exact ⟨_, rfl⟩
          · exact ⟨_, rfl⟩
        obtain ⟨t, ht⟩ := hsome
        rw [ht]
        simp only [reduceCtorEq, false_iff]
        rintro (rfl | hc | hc)
        · exact h1 rfl
        · exact h1 hc
        · exact h2 hc
  · intro s
    refine ⟨?_, ?_, ?_, ?_, ?_, ?_, ?_⟩ <;>
      simp [dumpShot, exists_mem_dumpOptStr, exists_mem_dumpOptObj]
  · intro sc
    refine ⟨?_, ?_, ?_, ?_, ?_, ?_⟩ <;>
      simp [dumpScene, exists_mem_dumpOptStr]
  · intro l
    exact ⟨by simp [dumpLocation, exists_mem_dumpOptStr],
           by simp [dumpLocation, exists_mem_dumpOptStr]⟩
  · intro cm
    refine ⟨?_, ?_, ?_⟩ <;> simp [dumpCameraMovement, exists_mem_dumpOptStr]
  · intro tc
    exact ⟨by simp [dumpShotTimecode, exists_mem_dumpOptStr],
           by simp [dumpShotTimecode, exists_mem_dumpOptStr]⟩
  · intro tp
    exact ⟨by simp [dumpTimePeriod, exists_mem_dumpOptInt],
           by simp [dumpTimePeriod, exists_mem_dumpOptInt]⟩

/-- C8: a shot carries the `oref` attribute exactly when the cleaned flag
cell equals the literal string `"TRUE"` (case-sensitive exact match); any
other value — including `"true"`, `"false"` and absent — omits it, and the
materializer passes the attribute through unchanged. -/
theorem c8_oref_literal_true :
    (∀ (n : Int) (rd : Row),
      (createShotData n rd).oref = if rd.oref = some "TRUE" then some "TRUE" else none) ∧
    (∀ sd noCam noTc shot, createShotModel sd noCam noTc = .ok shot → shot.oref = sd.oref) ∧
    (createShotData 1 { oref := some "true" }).oref = none ∧
    (createShotData 1 { oref := some "false" }).oref = none ∧
    (createShotData 1 { oref := none }).oref = none ∧
    (createShotData 1 { oref := some "TRUE" }).oref = some "TRUE" := by
  refine ⟨fun n rd => ?_, fun sd noCam noTc shot h => ?_, rfl, rfl, rfl, rfl⟩
  · by_cases h : rd.oref = some "TRUE" <;> simp [createShotData, h]
  · unfold createShotModel at h
    rcases hc : (if noCam then none else some
        { speed := sd.camera_movement.speed, type := sd.camera_movement.type,
          video_prompt := sd.camera_movement.video_prompt : CameraMovement }) with _ | cmv <;>
      rcases ht : (if noTc then none else some
        { in_time := sd.shot_timecode.in_time,
          out_time := sd.shot_timecode.out_time : ShotTimecode }) with _ | tcv <;>
      rw [hc, ht] at h <;> cases h
    rfl

/-- C8 witness: the materializer pass-through clause applied at a concrete
shot dict. -/
theorem c8_oref_literal_true_witness :
    (createShotModel (createShotData 1 { oref := some "TRUE" }) false false).toOption.map
      Shot.oref = some (some "TRUE") := by
  have h : createShotModel (createShotData 1 { oref := some "TRUE" }) false false =
      .ok { shot_number := 1, oref := some "TRUE", camera_angle := none,
            specific_area := none, description := none,
            camera_movement := some { speed := none, type := none, video_prompt := none },
            shot_timecode := some { in_time := none, out_time := none },
            image_prompt := none } := rfl
  have h2 := c8_oref_literal_true.2.1 (createShotData 1 { oref := some "TRUE" })
    false false _ h
  rw [h]
  simp [Except.toOption, h2]

/-- C10: `_format_value` rewrites exactly the fields `location_name`,
`specific_area`, `period`, `season`, `weather`, `speed` and `type`:
underscores become spaces, the string is lowercased, then only the first
character is capitalized (so `"Very Slow"` becomes `"Very slow"`); every
other field keeps its cleaned value unchanged.  The scene builder applies
it to period/season/weather/location-name and the shot builder to
specific-area/speed/type, while the remaining fields are stored as
cleaned. -/
theorem c10_sentence_case_formatting :
    (∀ field, field ∈ formattedFields → ∀ s : String, s ≠ "" →
      formatValue (some s) field = some (pyCapitalize (pyLower (pyReplaceUnderscore s)))) ∧
    (∀ field, field ∉ formattedFields → ∀ v, formatValue v field = v) ∧
    formatValue (some "Very Slow") "speed" = some "Very slow" ∧
    (∀ (c : Int) (rd : Row),
      (createSceneData c rd).period = formatValue rd.period "period" ∧
      (createSceneData c rd).season = formatValue rd.season "season" ∧
      (createSceneData c rd).weather = formatValue rd.weather "weather" ∧
      (createSceneData c rd).location_name = formatValue rd.location "location_name" ∧
      (createSceneData c rd).comment = rd.scene_context_comment ∧
      (createSceneData c rd).loc_type = rd.loc_type ∧
      (createSceneData c rd).diurnal = rd.diurnal ∧
      (createSceneData c rd).light_source = rd.light_sources) ∧
    (∀ (n : Int) (rd : Row),
      (createShotData n rd).specific_area = formatValue rd.specific_area "specific_area" ∧
      (createShotData n rd).camera_movement.speed = formatValue rd.move_speed "speed" ∧
      (createShotData n rd).camera_movement.type = formatValue rd.move_type "type" ∧
      (createShotData n rd).camera_angle = rd.angle ∧
      (createShotData n rd).description = rd.shot_description ∧
      (createShotData n rd).camera_movement.video_prompt = rd.video_prompt ∧
      (createShotData n rd).image_prompt = rd.image_prompt) := by
  refine ⟨fun field hf s hs => ?_, fun field hf v => ?_, rfl,
    fun c rd => ⟨rfl, rfl, rfl, rfl, rfl, rfl, rfl, rfl⟩,
    fun n rd => ⟨rfl, rfl, rfl, rfl, rfl, rfl, rfl⟩⟩
  · simp [formatValue, hs, hf]
  · cases v with
    | none => rfl
    | some s =>
      by_cases hs : s = "" <;> simp [formatValue, hs, hf]

/-- C10 witness: the formatting clause applied to the `speed` field at
`"VERY_SLOW"`, and the identity clause applied to the `ANGLE` field. -/
theorem c10_sentence_case_formatting_witness :
    formatValue (some "VERY_SLOW") "speed" = some "Very slow" ∧
    formatValue (some "Dutch Angle") "ANGLE" = some "Dutch Angle" := by
  constructor
  · rw [c10_sentence_case_formatting.1 "speed" (by decide) "VERY_SLOW" (by decide)]
    rfl
  · exact c10_sentence_case_formatting.2.1 "ANGLE" (by decide) (some "Dutch Angle")

/-- C4: a valid row whose non-absent Subgroup-key cell fails numeric
parsing is silently discarded — the fold step succeeds, the tree is
unchanged, the carried subgroup key is untouched — and a row dropped at
the validity gate likewise produces no exception; a decimal
representation such as `"2.0"` parses to the integer 2. -/
theorem c4_unparseable_scene_discarded :
    (∀ m st row v cp,
      isValidRow (cleanRow m row) = true →
      (cleanRow m row).scene_num = some v → v ≠ "" → pyFloatToInt v = none →
      phaseUpdate st.curPhase (cleanRow m row).phase_num = .ok cp →
      step m st row = .ok ⟨cp, st.curScene, st.phases⟩) ∧
    (∀ m st row, isValidRow (cleanRow m row) = false → step m st row = .ok st) ∧
    pyFloatToInt "2.0" = some 2 ∧
    pyFloatToInt "abc" = none := by
  refine ⟨fun m st row v cp hval hv hne hparse hph => ?_, fun m st row hval => ?_, rfl, rfl⟩
  · rcases hsv : (cleanRow m row).shot_num with _ | sv
    · rw [isValidRow, hsv] at hval; cases hval
    · have hsvne : sv ≠ "" := by
        rw [isValidRow, hsv] at hval; simpa [truthyStr] using hval
      simp only [step]
      rw [hsv]
      simp only [if_neg hsvne]
      rw [hph, hv]
      simp [sceneUpdate, hne, hparse]
  · rcases hsv : (cleanRow m row).shot_num with _ | sv
    · simp only [step]; rw [hsv]
    · have hsveq : sv = "" := by
        rw [isValidRow, hsv] at hval; simpa [truthyStr] using hval
      simp only [step]; rw [hsv]; simp [hsveq]

/-- C4 witness: applied to a concrete row with `SHOT_NUM = "3"` and
`SCENE_NUM = "abc"`, and to a concrete row with no `SHOT_NUM`. -/
theorem c4_unparseable_scene_discarded_witness :
    step [] ⟨some 1, some 1, []⟩ { shot_num := some "3", scene_num := some "abc" } =
      .ok ⟨some 1, some 1, []⟩ ∧
    step [] foldInit { phase_num := some "2" } = .ok foldInit := by
  constructor
  · exact c4_unparseable_scene_discarded.1 [] ⟨some 1, some 1, []⟩
      { shot_num := some "3", scene_num := some "abc" } "abc" (some 1)
      (by decide) (by decide) (by decide) (by decide) (by rfl)
  · exact c4_unparseable_scene_discarded.2.1 [] foldInit { phase_num := some "2" }
      (by decide)

/-- A row whose `SHOT_NUM` cell is absent (fails the validity gate). -/
def rowNoShot : Row := { phase_num := some "1", scene_num := some "1" }

/-- A minimal row that passes both gates. -/
def rowSimpleShot : Row :=
  { phase_num := some "1", scene_num := some "1", shot_num := some "1" }

/-- C1 counterexample: with a single row that fails the validity gate, the
finalized total-leaf-count is 1 (the row count read from the source), not
the validity-gate count 0: the claimed equality is false. -/
theorem c1_counterexample_invalid_row_counted :
    ¬ ((convertTsvToYaml [] "T" false false [rowNoShot]).map Project.total_shots =
        .ok ((countValidRows [] [rowNoShot] : Nat) : Int)) := by
  have h1 : (convertTsvToYaml [] "T" false false [rowNoShot]).map Project.total_shots =
      .ok (1 : Int) := rfl
  have h2 : countValidRows [] [rowNoShot] = 0 := rfl
  rw [h1, h2]
  intro h
  simp at h

/-- C1 (amended): the finalized Document's total-leaf-count equals the
total number of data rows read from the source — the rows that passed the
validity gate plus the rows dropped there — so rows dropped at either
gate are all included in the count. -/
theorem buildProjectStructure_total_shots (proj : Project) (phases : PhasesDict)
    (noCam noTc : Bool) (proj' : Project)
    (h : buildProjectStructure proj phases noCam noTc = .ok proj') :
    proj'.total_shots = proj.total_shots := by
  unfold buildProjectStructure at h
  rcases hm : (sortByKey phases).mapM (fun kv => createPhaseModel kv.2 noCam noTc)
      with e | phs <;> rw [hm] at h
  · simp at h
  · cases h; rfl

theorem c1_total_count_counts_all_rows (m : Mappings) (title : String)
    (noCam noTc : Bool) (rows : List Row) (proj : Project)
    (h : convertTsvToYaml m title noCam noTc rows = .ok proj) :
    proj.total_shots = (countValidRows m rows : Int) + (countInvalidRows m rows : Int) := by
  have htot : proj.total_shots = (rows.length : Int) := by
    simp only [convertTsvToYaml] at h
    rcases hp : processTsvData m rows with e | phases <;> rw [hp] at h
    · simp at h
    · exact buildProjectStructure_total_shots _ _ _ _ _ h
  rw [htot]
  have := length_filter_add_length_filter_not rows (fun r => isValidRow (cleanRow m r))
  unfold countValidRows countInvalidRows
  omega

/-- C1 (amended) witness: one valid and one invalid row give
total-leaf-count 2 = 1 valid + 1 invalid. -/
theorem c1_total_count_counts_all_rows_witness :
    ∃ proj, convertTsvToYaml [] "T" false false [rowSimpleShot, rowNoShot] = .ok proj ∧
      proj.total_shots = (countValidRows [] [rowSimpleShot, rowNoShot] : Int) +
        (countInvalidRows [] [rowSimpleShot, rowNoShot] : Int) := by
  rcases hp : convertTsvToYaml [] "T" false false [rowSimpleShot, rowNoShot] with e | proj
  · exact absurd hp (by intro hc; rw [show convertTsvToYaml [] "T" false false
      [rowSimpleShot, rowNoShot] = .ok ((convertTsvToYaml [] "T" false false
      [rowSimpleShot, rowNoShot]).toOption.get (by rfl)) from rfl] at hc; cases hc)
  · exact ⟨proj, rfl, c1_total_count_counts_all_rows [] "T" false false
      [rowSimpleShot, rowNoShot] proj hp⟩

/-- C2 (code evaluated at the failing input): with `no_camera_movement`
(resp. `no_shot_timecode`) enabled, `Shot(**shot_kwargs)` is called
without its required `camera_movement` (resp. `shot_timecode`) field
(models.py:41-42 declare them without a default), so materialization
raises a validation error instead of producing a Document with the block
omitted — for every shot dict, and end-to-end for a one-row source. -/
theorem c2_toggle_raises_validation_error :
    (∀ sd : ShotData,
      createShotModel sd true false = .error (.validation "camera_movement: Field required")) ∧
    (∀ sd : ShotData,
      createShotModel sd false true = .error (.validation "shot_timecode: Field required")) ∧
    convertTsvToYaml [] "T" true false [rowSimpleShot] =
      .error (.validation "camera_movement: Field required") ∧
    convertTsvToYaml [] "T" false true [rowSimpleShot] =
      .error (.validation "shot_timecode: Field required") :=
  ⟨fun _ => rfl, fun _ => rfl, rfl, rfl⟩

/-- C9: an unguarded `int(...)` conversion aborts the whole fold.  A valid
row whose non-absent Group-key cell fails integer parsing (such as
`"2.0"` or `"abc"`) makes the fold return the error for the entire
remaining source, and so does a resolved row whose Leaf-sequence-number
cell fails integer parsing; `"2.0"` and `"abc"` are both rejected by
integer parsing. -/
theorem c9_unguarded_int_conversion_raises :
    (∀ m st (rest : List Row) row v,
      isValidRow (cleanRow m row) = true →
      (cleanRow m row).phase_num = some v → v ≠ "" → parsePyInt v = none →
      stepFold m st (row :: rest) = .error (.intParse v)) ∧
    (∀ m st (rest : List Row) row sv p c,
      (cleanRow m row).shot_num = some sv → sv ≠ "" →
      phaseUpdate st.curPhase (cleanRow m row).phase_num = .ok (some p) →
      sceneUpdate st.curScene (cleanRow m row).scene_num = some (some c) →
      parsePyInt (removeBom sv) = none →
      stepFold m st (row :: rest) = .error (.intParse sv)) ∧
    parsePyInt "2.0" = none ∧ parsePyInt "abc" = none := by
  refine ⟨fun m st rest row v hval hv hne hparse => ?_,
          fun m st rest row sv p c hsv hsvne hph hsc hparse => ?_, rfl, rfl⟩
  · rcases hsv : (cleanRow m row).shot_num with _ | sv
    · rw [isValidRow, hsv] at hval; cases hval
    · have hsvne : sv ≠ "" := by
        rw [isValidRow, hsv] at hval; simpa [truthyStr] using hval
      have hstep : step m st row = .error (.intParse v) := by
        simp only [step]
        rw [hsv]
        simp only [if_neg hsvne]
        rw [hv]
        simp [phaseUpdate, hne, hparse]
      rw [stepFold, List.foldlM_cons, hstep]
      rfl
  · have hstep : step m st row = .error (.intParse sv) := by
      simp only [step]
      rw [hsv]
      simp only [if_neg hsvne]
      rw [hph, hsc, hparse]
    rw [stepFold, List.foldlM_cons, hstep]
    rfl

/-- C9 witness: a row with `SHOT_NUM = "1"` and `PHASE_NUM = "2.0"` aborts
the fold with the integer-parse error, and a resolved row with
`SHOT_NUM = "x1"` does too. -/
theorem c9_unguarded_int_conversion_raises_witness :
    stepFold [] foldInit
      [{ shot_num := some "1", phase_num := some "2.0" }, rowSimpleShot] =
      .error (.intParse "2.0") ∧
    stepFold [] ⟨some 1, some 1, []⟩ [{ shot_num := some "x1" }] =
      .error (.intParse "x1") := by
  constructor
  · exact c9_unguarded_int_conversion_raises.1 [] foldInit [rowSimpleShot]
      { shot_num := some "1", phase_num := some "2.0" } "2.0"
      (by decide) (by rfl) (by decide) (by rfl)
  · exact c9_unguarded_int_conversion_raises.2.1 [] ⟨some 1, some 1, []⟩ []
      { shot_num := some "x1" } "x1" 1 1 (by rfl) (by decide) (by rfl) (by rfl) (by rfl)

/-! ## Dictionary lemmas -/

theorem lookupKey_append_of_isSome {α : Type} (l l' : List (Int × α)) (q : Int)
    (h : (lookupKey l q).isSome) : lookupKey (l ++ l') q = lookupKey l q := by
  induction l with
  | nil => simp [lookupKey] at h
  | cons kv t ih =>
    rcases kv with ⟨k, v⟩
    by_cases hk : k = q
    · simp [lookupKey, hk]
    · rw [lookupKey, if_neg hk] at h
      simpa [lookupKey, hk] using ih h

theorem lookupKey_append_of_none {α : Type} (l l' : List (Int × α)) (q : Int)
    (h : lookupKey l q = none) : lookupKey (l ++ l') q = lookupKey l' q := by
  induction l with
  | nil => simp [lookupKey]
  | cons kv t ih =>
    rcases kv with ⟨k, v⟩
    by_cases hk : k = q
    · rw [lookupKey, if_pos hk] at h; cases h
    · rw [lookupKey, if_neg hk] at h
      simpa [lookupKey, hk] using ih h

theorem lookupKey_updateKey {α : Type} (l : List (Int × α)) (q : Int) (f : α → α) (q' : Int) :
    lookupKey (updateKey l q f) q' =
      if q' = q then (lookupKey l q).map f else lookupKey l q' := by
  induction l with
  | nil => simp [lookupKey, updateKey]
  | cons kv t ih =>
    rcases kv with ⟨k, v⟩
    by_cases hkq : k = q
    · subst hkq
      by_cases hq' : q' = k
      · subst hq'
        simp [lookupKey, updateKey]
      · have hkq' : ¬ k = q' := fun h => hq' h.symm
        rw [updateKey, if_pos rfl, lookupKey, if_neg hkq', if_neg hq', lookupKey, if_neg hkq']
    · rw [updateKey, if_neg hkq]
      by_cases hq' : k = q'
      · subst hq'
        have hq'q : ¬ k = q := hkq
        rw [lookupKey, if_pos rfl, if_neg hq'q, lookupKey, if_pos rfl]
      · rw [lookupKey, if_neg hq', ih]
        by_cases hq'q : q' = q
        · rw [if_pos hq'q, if_pos hq'q, lookupKey, if_neg hkq]
        · rw [if_neg hq'q, if_neg hq'q, lookupKey, if_neg hq']

theorem lookupKey_some_mem {α : Type} (l : List (Int × α)) (q : Int) (v : α)
    (h : lookupKey l q = some v) : (q, v) ∈ l := by
  induction l with
  | nil => cases h
  | cons kv t ih =>
    rcases kv with ⟨k, w⟩
    by_cases hk : k = q
    · rw [lookupKey, if_pos hk] at h
      cases h
      subst hk
      exact List.mem_cons_self _ _
    · rw [lookupKey, if_neg hk] at h
      exact List.mem_cons_of_mem _ (ih h)

/-! ## First-writer-wins preservation (C5) -/

/-- All descriptive metadata of a scene dict (everything except `shots`)
is identical in `b` and `a`. -/
def scenePreserved (a b : SceneData) : Prop :=
  b.scene_number = a.scene_number ∧ b.comment = a.comment ∧ b.period = a.period ∧
  b.season = a.season ∧ b.weather = a.weather ∧ b.loc_type = a.loc_type ∧
  b.location_name = a.location_name ∧ b.diurnal = a.diurnal ∧
  b.light_source = a.light_source

/-- Every phase entry of `ph` survives into `ph'` with unchanged
descriptive metadata (phase number and time period), and every scene entry
below it survives with unchanged descriptive metadata. -/
def phasesPreserved (ph ph' : PhasesDict) : Prop :=
  ∀ p pd, lookupKey ph p = some pd →
    ∃ pd', lookupKey ph' p = some pd' ∧
      pd'.phase_number = pd.phase_number ∧ pd'.time_period = pd.time_period ∧
      ∀ c sc, lookupKey pd.scenes c = some sc →
        ∃ sc', lookupKey pd'.scenes c = some sc' ∧ scenePreserved sc sc'

theorem scenePreserved_refl (a : SceneData) : scenePreserved a a :=
  ⟨rfl, rfl, rfl, rfl, rfl, rfl, rfl, rfl, rfl⟩

theorem phasesPreserved_refl (ph : PhasesDict) : phasesPreserved ph ph :=
  fun _ pd h => ⟨pd, h, rfl, rfl, fun _ sc hc => ⟨sc, hc, scenePreserved_refl sc⟩⟩

theorem scenePreserved_trans {a b c : SceneData}
    (h1 : scenePreserved a b) (h2 : scenePreserved b c) : scenePreserved a c := by
  obtain ⟨e1, e2, e3, e4, e5, e6, e7, e8, e9⟩ := h1
  obtain ⟨f1, f2, f3, f4, f5, f6, f7, f8, f9⟩ := h2
  exact ⟨f1.trans e1, f2.trans e2, f3.trans e3, f4.trans e4, f5.trans e5,
         f6.trans e6, f7.trans e7, f8.trans e8, f9.trans e9⟩

theorem phasesPreserved_trans {x y z : PhasesDict}
    (h1 : phasesPreserved x y) (h2 : phasesPreserved y z) : phasesPreserved x z := by
  intro p pd hp
  obtain ⟨pd', hp', hn, ht, hs⟩ := h1 p pd hp
  obtain ⟨pd'', hp'', hn', ht', hs'⟩ := h2 p pd' hp'
  refine ⟨pd'', hp'', hn'.trans hn, ht'.trans ht, fun c sc hc => ?_⟩
  obtain ⟨sc', hc', hm⟩ := hs c sc hc
  obtain ⟨sc'', hc'', hm'⟩ := hs' c sc' hc'
  exact ⟨sc'', hc'', scenePreserved_trans hm hm'⟩

theorem ensurePhaseExists_preserves (phases : PhasesDict) (p : Int) (rd : Row)
    (ph1 : PhasesDict) (h : ensurePhaseExists phases p rd = .ok ph1) :
    phasesPreserved phases ph1 := by
  unfold ensurePhaseExists at h
  by_cases hp : (lookupKey phases p).isSome
  · rw [if_pos hp] at h
    cases h
    exact phasesPreserved_refl _
  · rw [if_neg hp] at h
    rcases h1 : parseOptIntField rd.phase_start with e | s <;> rw [h1] at h
    · cases h
    · rcases h2 : parseOptIntField rd.phase_end with e | en <;> rw [h2] at h
      · cases h
      · cases h
        intro q pd hq
        refine ⟨pd, ?_, rfl, rfl, fun c sc hc => ⟨sc, hc, scenePreserved_refl sc⟩⟩
        rw [lookupKey_append_of_isSome _ _ _ (by rw [hq]; rfl)]
        exact hq

theorem ensureSceneExists_preserves (phases : PhasesDict) (p c : Int) (rd : Row) :
    phasesPreserved phases (ensureSceneExists phases p c rd) := by
  intro q pd hq
  by_cases hqp : q = p
  · subst hqp
    have hl : lookupKey (ensureSceneExists phases q c rd) q =
        some (if (lookupKey pd.scenes c).isSome then pd
              else { pd with scenes := pd.scenes ++ [(c, createSceneData c rd)] }) := by
      unfold ensureSceneExists
      rw [lookupKey_updateKey, if_pos rfl, hq]
      rfl
    by_cases hc : (lookupKey pd.scenes c).isSome
    · rw [if_pos hc] at hl
      exact ⟨pd, hl, rfl, rfl, fun c' sc hc' => ⟨sc, hc', scenePreserved_refl sc⟩⟩
    · rw [if_neg hc] at hl
      refine ⟨_, hl, rfl, rfl, fun c' sc hc' => ⟨sc, ?_, scenePreserved_refl sc⟩⟩
      show lookupKey (pd.scenes ++ [(c, createSceneData c rd)]) c' = some sc
      rw [lookupKey_append_of_isSome _ _ _ (by rw [hc']; rfl)]
      exact hc'
  · have hl : lookupKey (ensureSceneExists phases p c rd) q = some pd := by
      unfold ensureSceneExists
      rw [lookupKey_updateKey, if_neg hqp]
      exact hq
    exact ⟨pd, hl, rfl, rfl, fun c' sc hc' => ⟨sc, hc', scenePreserved_refl sc⟩⟩

theorem addShotToScene_preserves (phases : PhasesDict) (p c : Int) (sd : ShotData) :
    phasesPreserved phases (addShotToScene phases p c sd) := by
  intro q pd hq
  by_cases hqp : q = p
  · subst hqp
    have hl : lookupKey (addShotToScene phases q c sd) q =
        some { pd with scenes := updateKey pd.scenes c (fun sc =>
                 { sc with shots := sc.shots ++ [sd] }) } := by
      unfold addShotToScene
      rw [lookupKey_updateKey, if_pos rfl, hq]
      rfl
    refine ⟨_, hl, rfl, rfl, fun c' sc hc' => ?_⟩
    show ∃ sc', lookupKey (updateKey pd.scenes c (fun sc =>
      { sc with shots := sc.shots ++ [sd] })) c' = some sc' ∧ scenePreserved sc sc'
    rw [lookupKey_updateKey]
    by_cases hcc : c' = c
    · subst hcc
      rw [if_pos rfl, hc']
      exact ⟨_, rfl, scenePreserved_refl sc⟩
    · rw [if_neg hcc]
      exact ⟨sc, hc', scenePreserved_refl sc⟩
  · have hl : lookupKey (addShotToScene phases p c sd) q = some pd := by
      unfold addShotToScene
      rw [lookupKey_updateKey, if_neg hqp]
      exact hq
    exact ⟨pd, hl, rfl, rfl, fun c' sc hc' => ⟨sc, hc', scenePreserved_refl sc⟩⟩

theorem processRowData_preserves (phases : PhasesDict) (rd : Row) (p c n : Int)
    (ph' : PhasesDict) (h : processRowData phases rd p c n = .ok ph') :
    phasesPreserved phases ph' := by
  unfold processRowData at h
  rcases h1 : ensurePhaseExists phases p rd with e | ph1 <;> rw [h1] at h
  · cases h
  · cases h
    exact phasesPreserved_trans (ensurePhaseExists_preserves _ _ _ _ h1)
      (phasesPreserved_trans (ensureSceneExists_preserves ph1 p c rd)
        (addShotToScene_preserves _ p c _))

/-- The tree after one successful step is either unchanged or the outcome
of `processRowData` on the cleaned row. -/
theorem step_ok_phases (m : Mappings) (st : FoldState) (row : Row) (st1 : FoldState)
    (h : step m st row = .ok st1) :
    st1.phases = st.phases ∨
      ∃ p c n, processRowData st.phases (cleanRow m row) p c n = .ok st1.phases := by
  simp only [step] at h
  split at h
  · cases h; exact Or.inl rfl
  · split at h
    · cases h; exact Or.inl rfl
    · split at h
      · cases h
      · split at h
        · cases h; exact Or.inl rfl
        · split at h
          · split at h
            · cases h
            · split at h
              · cases h
              · cases h
                exact Or.inr ⟨_, _, _, by assumption⟩
          · cases h; exact Or.inl rfl

theorem step_preserves (m : Mappings) (st st1 : FoldState) (row : Row)
    (h : step m st row = .ok st1) : phasesPreserved st.phases st1.phases := by
  rcases step_ok_phases m st row st1 h with heq | ⟨p, c, n, hpr⟩
  · rw [heq]
    exact phasesPreserved_refl _
  · exact processRowData_preserves _ _ _ _ _ _ hpr

/-- C5: first-writer-wins.  Once the fold has created a Group entry (resp.
a Subgroup entry) for a key, no later row changes that entry's descriptive
metadata: after folding any further row sequence that succeeds, every
existing phase entry still has its original phase number and time period,
and every existing scene entry below it still has its original descriptive
fields (only the `shots` lists may grow). -/
theorem c5_first_writer_wins (m : Mappings) (rows : List Row) (st st' : FoldState)
    (h : stepFold m st rows = .ok st') : phasesPreserved st.phases st'.phases := by
  induction rows generalizing st with
  | nil =>
    rw [stepFold, List.foldlM_nil] at h
    cases h
    exact phasesPreserved_refl _
  | cons r rest ih =>
    rw [stepFold, List.foldlM_cons] at h
    rcases hs : step m st r with e | st1 <;> rw [hs] at h
    · cases h
    · exact phasesPreserved_trans (step_preserves m st st1 r hs) (ih st1 h)

/-- A one-phase, one-scene tree with descriptive metadata already seeded. -/
def phasesA : PhasesDict :=
  [(1, { phase_number := 1
         time_period := { start := some 1800, stop := some 1900 }
         scenes := [(1, { scene_number := 1, comment := none, period := some "Summer",
                          season := none, weather := none, loc_type := none,
                          location_name := none, diurnal := none, light_source := none,
                          shots := [] })] })]

/-- A later row reusing phase key 1 and scene key 1 with contradicting
descriptive values. -/
def rowOverwrite : Row :=
  { phase_num := some "1", phase_start := some "1111", phase_end := some "2222",
    scene_num := some "1", period := some "winter", shot_num := some "9" }

/-- C5 witness: folding a contradicting row over an existing tree leaves
the seeded phase and scene metadata intact. -/
theorem c5_first_writer_wins_witness :
    ∃ st', stepFold [] ⟨some 1, some 1, phasesA⟩ [rowOverwrite] = .ok st' ∧
      phasesPreserved phasesA st'.phases := by
  rcases hp : stepFold [] ⟨some 1, some 1, phasesA⟩ [rowOverwrite] with e | st'
  · exact absurd hp (by
      intro hc
      rw [show stepFold [] ⟨some 1, some 1, phasesA⟩ [rowOverwrite] =
        .ok ((stepFold [] ⟨some 1, some 1, phasesA⟩ [rowOverwrite]).toOption.get
          (by rfl)) from rfl] at hc
      cases hc)
  · exact ⟨st', rfl, c5_first_writer_wins [] [rowOverwrite] ⟨some 1, some 1, phasesA⟩ st' hp⟩

/-! ## Carry-forward tracking (C3) -/

/-- The `current_phase` update a single cleaned Group-key cell performs
(`none` keeps the carried value). -/
def phaseSpecCell (a : Option Int) : Option String → Option Int
  | none => a
  | some s =>
    if s = "" then a
    else
      match parsePyInt s with
      | some n => some n
      | none => a

/-- The `current_scene` update a single cleaned Subgroup-key cell performs
(an unparseable cell leaves the carried value untouched — the row is
skipped). -/
def sceneSpecCell (a : Option Int) : Option String → Option Int
  | none => a
  | some s =>
    if s = "" then a
    else
      match pyFloatToInt s with
      | some n => some n
      | none => a

/-- The Group-key assignment performed by one row: only a row passing the
validity gate can assign. -/
def stepPhaseSpec (m : Mappings) (a : Option Int) (r : Row) : Option Int :=
  if isValidRow (cleanRow m r) then phaseSpecCell a (cleanRow m r).phase_num else a

/-- The Subgroup-key assignment performed by one row. -/
def stepSceneSpec (m : Mappings) (a : Option Int) (r : Row) : Option Int :=
  if isValidRow (cleanRow m r) then sceneSpecCell a (cleanRow m r).scene_num else a

/-- The most recently assigned Group key after a row sequence, starting
from carried value `a`. -/
def lastAssignedPhase (m : Mappings) (a : Option Int) : List Row → Option Int
  | [] => a
  | r :: rs => lastAssignedPhase m (stepPhaseSpec m a r) rs

/-- The most recently assigned Subgroup key after a row sequence. -/
def lastAssignedScene (m : Mappings) (a : Option Int) : List Row → Option Int
  | [] => a
  | r :: rs => lastAssignedScene m (stepSceneSpec m a r) rs

theorem phaseUpdate_ok_eq (a : Option Int) (v : Option String) (cp : Option Int)
    (h : phaseUpdate a v = .ok cp) : cp = phaseSpecCell a v := by
  rcases v with _ | s
  · rw [phaseUpdate] at h
    injection h with h'
    rw [← h']
    rfl
  · by_cases hs : s = ""
    · subst hs
      rw [phaseUpdate, if_pos rfl] at h
      injection h with h'
      rw [← h']
      rfl
    · rcases hp : parsePyInt s with _ | n
      · rw [phaseUpdate, if_neg hs, hp] at h
        cases h
      · rw [phaseUpdate, if_neg hs, hp] at h
        injection h with h'
        rw [← h', phaseSpecCell, if_neg hs, hp]

theorem sceneUpdate_some_eq (a : Option Int) (v : Option String) (cs : Option Int)
    (h : sceneUpdate a v = some cs) : cs = sceneSpecCell a v := by
  rcases v with _ | s
  · rw [sceneUpdate] at h
    injection h with h'
    rw [← h']
    rfl
  · by_cases hs : s = ""
    · subst hs
      rw [sceneUpdate, if_pos rfl] at h
      injection h with h'
      rw [← h']
      rfl
    · rcases hp : pyFloatToInt s with _ | n
      · rw [sceneUpdate, if_neg hs, hp] at h
        cases h
      · rw [sceneUpdate, if_neg hs, hp] at h
        injection h with h'
        rw [← h', sceneSpecCell, if_neg hs, hp]

theorem sceneUpdate_none_eq (a : Option Int) (v : Option String)
    (h : sceneUpdate a v = none) : sceneSpecCell a v = a := by
  rcases v with _ | s
  · rfl
  · by_cases hs : s = ""
    · rw [sceneUpdate, if_pos hs] at h
      cases h
    · rcases hp : pyFloatToInt s with _ | n
      · rw [sceneSpecCell, if_neg hs, hp]
      · rw [sceneUpdate, if_neg hs, hp] at h
        cases h

/-- One successful step updates the carried keys exactly as the
specification-level per-row assignment does. -/
theorem step_ok_state (m : Mappings) (st : FoldState) (row : Row) (st1 : FoldState)
    (h : step m st row = .ok st1) :
    st1.curPhase = stepPhaseSpec m st.curPhase row ∧
    st1.curScene = stepSceneSpec m st.curScene row := by
  have hval := fun (sv : String) (hsv : (cleanRow m row).shot_num = some sv)
      (hne : sv ≠ "") => show isValidRow (cleanRow m row) = true by
    rw [isValidRow, hsv]
    simpa [truthyStr] using hne
  simp only [step] at h
  split at h
  · cases h
    rename_i heq
    constructor <;> simp [stepPhaseSpec, stepSceneSpec, isValidRow, truthyStr, heq]
  · rename_i sv heq
    split at h
    · cases h
      rename_i hsv
      constructor <;>
        simp [stepPhaseSpec, stepSceneSpec, isValidRow, truthyStr, heq, hsv]
    · rename_i hsv
      have hv := hval sv heq hsv
      split at h
      · cases h
      · rename_i cp hcp
        split at h
        · cases h
          rename_i hscn
          refine ⟨?_, ?_⟩
          · rw [stepPhaseSpec, if_pos hv]
            exact phaseUpdate_ok_eq _ _ _ hcp
          · rw [stepSceneSpec, if_pos hv]
            exact (sceneUpdate_none_eq _ _ hscn).symm
        · rename_i cs hscs
          split at h
          · rename_i p c
            split at h
            · cases h
            · split at h
              · cases h
              · cases h
                refine ⟨?_, ?_⟩
                · rw [stepPhaseSpec, if_pos hv]
                  exact phaseUpdate_ok_eq _ _ _ hcp
                · rw [stepSceneSpec, if_pos hv]
                  exact sceneUpdate_some_eq _ _ _ hscs
          · cases h
            refine ⟨?_, ?_⟩
            · rw [stepPhaseSpec, if_pos hv]
              exact phaseUpdate_ok_eq _ _ _ hcp
            · rw [stepSceneSpec, if_pos hv]
              exact sceneUpdate_some_eq _ _ _ hscs

/-- A successful fold carries exactly the most recently assigned Group and
Subgroup keys. -/
theorem stepFold_tracks (m : Mappings) (rows : List Row) :
    ∀ st st', stepFold m st rows = .ok st' →
      st'.curPhase = lastAssignedPhase m st.curPhase rows ∧
      st'.curScene = lastAssignedScene m st.curScene rows := by
  induction rows with
  | nil =>
    intro st st' h
    rw [stepFold, List.foldlM_nil] at h
    cases h
    exact ⟨rfl, rfl⟩
  | cons r rest ih =>
    intro st st' h
    rw [stepFold, List.foldlM_cons] at h
    rcases hs : step m st r with e | st1 <;> rw [hs] at h
    · cases h
    · obtain ⟨h1, h2⟩ := step_ok_state m st r st1 hs
      obtain ⟨h1', h2'⟩ := ih st1 st' h
      rw [lastAssignedPhase, lastAssignedScene]
      exact ⟨by rw [h1', h1], by rw [h2', h2]⟩

/-- The leaf list filed under a (Group key, Subgroup key) pair. -/
def shotsAt (phases : PhasesDict) (p c : Int) : List ShotData :=
  match lookupKey phases p with
  | none => []
  | some pd =>
    match lookupKey pd.scenes c with
    | none => []
    | some sc => sc.shots

theorem shotsAt_of_lookup (phases : PhasesDict) (p c : Int) (pd : PhaseData)
    (h : lookupKey phases p = some pd) :
    shotsAt phases p c = (match lookupKey pd.scenes c with
      | none => [] | some sc => sc.shots) := by
  rw [shotsAt, h]

/-- Appending one shot to a scene dict's list. -/
def appendShot (sd : ShotData) (sc : SceneData) : SceneData :=
  { sc with shots := sc.shots ++ [sd] }

/-- Inserting a row's shot appends exactly one leaf at the resolved
(Group, Subgroup) address. -/
theorem processRowData_shotsAt (phases : PhasesDict) (rd : Row) (p c n : Int)
    (ph' : PhasesDict) (h : processRowData phases rd p c n = .ok ph') :
    shotsAt ph' p c = shotsAt phases p c ++ [createShotData n rd] := by
  unfold processRowData at h
  rcases h1 : ensurePhaseExists phases p rd with e | ph1 <;> rw [h1] at h
  · cases h
  · cases h
    have key : ∃ pd1, lookupKey ph1 p = some pd1 ∧
        shotsAt phases p c = (match lookupKey pd1.scenes c with
          | none => [] | some sc => sc.shots) := by
      unfold ensurePhaseExists at h1
      by_cases hp : (lookupKey phases p).isSome
      · rw [if_pos hp] at h1
        injection h1 with h1'
        rcases hpd : lookupKey phases p with _ | pd1
        · rw [hpd] at hp; cases hp
        · refine ⟨pd1, ?_, shotsAt_of_lookup _ _ _ _ hpd⟩
          rw [← h1']
          exact hpd
      · rw [if_neg hp] at h1
        rcases h2 : parseOptIntField rd.phase_start with e | sv <;> rw [h2] at h1
        · cases h1
        · rcases h3 : parseOptIntField rd.phase_end with e | ev <;> rw [h3] at h1
          · cases h1
          · injection h1 with h1'
            have hnone : lookupKey phases p = none := by
              rcases hl : lookupKey phases p with _ | v
              · rfl
              · rw [hl] at hp; exact absurd rfl hp
            refine ⟨{ phase_number := p, time_period := { start := sv, stop := ev },
                      scenes := [] }, ?_, ?_⟩
            · rw [← h1', lookupKey_append_of_none _ _ _ hnone, lookupKey, if_pos rfl]
            · rw [shotsAt, hnone]
              rfl
    obtain ⟨pd1, hpd1, horig⟩ := key
    rw [horig]
    rcases hsc : lookupKey pd1.scenes c with _ | sc
    · -- the subgroup entry did not exist: a fresh scene receives the shot
      have hscene : lookupKey (ensureSceneExists ph1 p c rd) p =
          some { pd1 with scenes := pd1.scenes ++ [(c, createSceneData c rd)] } := by
        unfold ensureSceneExists
        rw [lookupKey_updateKey, if_pos rfl, hpd1]
        simp [hsc]
      have hadd : lookupKey (addShotToScene (ensureSceneExists ph1 p c rd) p c
          (createShotData n rd)) p =
          some { pd1 with scenes := updateKey (pd1.scenes ++ [(c, createSceneData c rd)]) c (appendShot (createShotData n rd)) } := by
        unfold addShotToScene
        rw [lookupKey_updateKey, if_pos rfl, hscene]
        rfl
      have hlook2 : lookupKey (updateKey (pd1.scenes ++ [(c, createSceneData c rd)]) c
          (appendShot (createShotData n rd))) c =
          some (appendShot (createShotData n rd) (createSceneData c rd)) := by
        rw [lookupKey_updateKey, if_pos rfl, lookupKey_append_of_none _ _ _ hsc,
            lookupKey, if_pos rfl]
        rfl
      rw [shotsAt, hadd]
      simp only [hlook2]
      rfl
    · -- the subgroup entry existed: its shot list is appended to
      have hscene : lookupKey (ensureSceneExists ph1 p c rd) p = some pd1 := by
        unfold ensureSceneExists
        rw [lookupKey_updateKey, if_pos rfl, hpd1]
        simp [hsc]
      have hadd : lookupKey (addShotToScene (ensureSceneExists ph1 p c rd) p c
          (createShotData n rd)) p =
          some { pd1 with scenes := updateKey pd1.scenes c (appendShot (createShotData n rd)) } := by
        unfold addShotToScene
        rw [lookupKey_updateKey, if_pos rfl, hscene]
        rfl
      have hlook2 : lookupKey (updateKey pd1.scenes c (appendShot (createShotData n rd))) c =
          some (appendShot (createShotData n rd) sc) := by
        rw [lookupKey_updateKey, if_pos rfl, hsc]
        rfl
      rw [shotsAt, hadd]
      simp only [hlook2]
      rfl

/-- C3: carry-forward.  After folding any prefix, the carried Group and
Subgroup keys are exactly the most recently assigned ones from earlier
rows.  A valid row whose Group-key cell is absent is filed under the
carried Group key, and dropped (tree unchanged) when none was ever
assigned; a valid row whose Subgroup-key cell is absent keeps the carried
Subgroup key — even when that same row assigns a new Group key — and is
dropped when no Subgroup key was ever assigned. -/
theorem c3_carry_forward (m : Mappings) (pre : List Row) (r : Row) (s : FoldState)
    (hpre : stepFold m foldInit pre = .ok s)
    (hval : isValidRow (cleanRow m r) = true) :
    s.curPhase = lastAssignedPhase m none pre ∧
    s.curScene = lastAssignedScene m none pre ∧
    ((cleanRow m r).phase_num = none →
      ((s.curPhase = none → ∃ st', step m s r = .ok st' ∧ st'.phases = s.phases) ∧
       (∀ p c n ph', s.curPhase = some p →
          sceneUpdate s.curScene (cleanRow m r).scene_num = some (some c) →
          parsePyInt (removeBom ((cleanRow m r).shot_num.getD "")) = some n →
          processRowData s.phases (cleanRow m r) p c n = .ok ph' →
          step m s r = .ok ⟨some p, some c, ph'⟩ ∧
          shotsAt ph' p c = shotsAt s.phases p c ++ [createShotData n (cleanRow m r)]))) ∧
    ((cleanRow m r).scene_num = none →
      ∀ cp, phaseUpdate s.curPhase (cleanRow m r).phase_num = .ok cp →
        ((s.curScene = none →
            step m s r = .ok ⟨cp, none, s.phases⟩) ∧
         (∀ p c n ph', cp = some p → s.curScene = some c →
            parsePyInt (removeBom ((cleanRow m r).shot_num.getD "")) = some n →
            processRowData s.phases (cleanRow m r) p c n = .ok ph' →
            step m s r = .ok ⟨some p, some c, ph'⟩ ∧
            shotsAt ph' p c = shotsAt s.phases p c ++ [createShotData n (cleanRow m r)]))) := by
  obtain ⟨sv, hsv, hne⟩ : ∃ sv, (cleanRow m r).shot_num = some sv ∧ sv ≠ "" := by
    rcases hs : (cleanRow m r).shot_num with _ | sv
    · rw [isValidRow, hs] at hval; cases hval
    · refine ⟨sv, rfl, ?_⟩
      rw [isValidRow, hs] at hval
      simpa [truthyStr] using hval
  have hgetD : (cleanRow m r).shot_num.getD "" = sv := by rw [hsv]; rfl
  refine ⟨(stepFold_tracks m pre foldInit s hpre).1,
          (stepFold_tracks m pre foldInit s hpre).2, ?_, ?_⟩
  · intro hcell
    constructor
    · intro hp0
      rcases hscn2 : sceneUpdate s.curScene (cleanRow m r).scene_num with _ | cs
      · exact ⟨⟨none, s.curScene, s.phases⟩,
          by simp [step, hsv, hne, hcell, hscn2, phaseUpdate, hp0], rfl⟩
      · exact ⟨⟨none, cs, s.phases⟩,
          by simp [step, hsv, hne, hcell, hscn2, phaseUpdate, hp0], rfl⟩
    · intro p c n ph' hp hscn hn hproc
      rw [hgetD] at hn
      refine ⟨?_, processRowData_shotsAt _ _ _ _ _ _ hproc⟩
      simp [step, hsv, hne, hcell, hp, hscn, hn, hproc, phaseUpdate]
  · intro hcell cp hcp
    constructor
    · intro hs0
      simp only [step]
      rw [hsv]
      simp only [if_neg hne]
      rw [hcp, hcell, hs0]
      rcases cp with _ | p <;> simp [sceneUpdate]
    · intro p c n ph' hpe hs0 hn hproc
      subst hpe
      rw [hgetD] at hn
      refine ⟨?_, processRowData_shotsAt _ _ _ _ _ _ hproc⟩
      simp only [step]
      rw [hsv]
      simp only [if_neg hne]
      rw [hcp, hcell]
      simp [sceneUpdate, hs0, hn, hproc]

/-- C3 witness: applied after the one-row prefix `PHASE=1, SCENE=1, SHOT=1`
to a bare row `SHOT=2` with both grouping cells absent. -/
theorem c3_carry_forward_witness :
    ∃ s, stepFold [] foldInit [rowSimpleShot] = .ok s ∧
      s.curPhase = lastAssignedPhase [] none [rowSimpleShot] ∧
      s.curScene = lastAssignedScene [] none [rowSimpleShot] := by
  rcases hp : stepFold [] foldInit [rowSimpleShot] with e | s
  · exact absurd hp (by
      intro hc
      rw [show stepFold [] foldInit [rowSimpleShot] =
        .ok ((stepFold [] foldInit [rowSimpleShot]).toOption.get (by rfl)) from rfl] at hc
      cases hc)
  · have h := c3_carry_forward [] [rowSimpleShot] { shot_num := some "2" } s hp (by decide)
    exact ⟨s, rfl, h.1, h.2.1⟩

/-! ## Materializer ordering (C6) -/

/-- The shot model produced when neither exclusion toggle is set. -/
def shotModelOfData (sd : ShotData) : Shot :=
  { shot_number := sd.shot_number, oref := sd.oref, camera_angle := sd.camera_angle,
    specific_area := sd.specific_area, description := sd.description,
    camera_movement := some { speed := sd.camera_movement.speed,
                              type := sd.camera_movement.type,
                              video_prompt := sd.camera_movement.video_prompt },
    shot_timecode := some { in_time := sd.shot_timecode.in_time,
                            out_time := sd.shot_timecode.out_time },
    image_prompt := sd.image_prompt }

theorem createShotModel_default (sd : ShotData) :
    createShotModel sd false false = .ok (shotModelOfData sd) := rfl

theorem mapM_ok {α β : Type} (f : α → Except ConvErr β) (g : α → β)
    (hf : ∀ a, f a = .ok (g a)) : ∀ l : List α, l.mapM f = .ok (l.map g)
  | [] => rfl
  | a :: t => by
    rw [List.mapM_cons, hf a, List.map_cons, mapM_ok f g hf t]
    rfl

/-- The scene model produced when neither exclusion toggle is set. -/
def sceneModelOfData (sc : SceneData) : Scene :=
  { scene_number := sc.scene_number, comment := sc.comment, period := sc.period,
    season := sc.season, weather := sc.weather,
    location := { type := sc.loc_type, location_name := sc.location_name },
    diurnal := sc.diurnal, light_source := sc.light_source,
    shots := sc.shots.map shotModelOfData }

theorem createSceneModel_default (sc : SceneData) :
    createSceneModel sc false false = .ok (sceneModelOfData sc) := by
  unfold createSceneModel
  rw [mapM_ok _ shotModelOfData createShotModel_default sc.shots]
  rfl

/-- The phase model produced when neither exclusion toggle is set. -/
def phaseModelOfData (pd : PhaseData) : Phase :=
  { phase_number := pd.phase_number,
    time_period := { start := pd.time_period.start, stop := pd.time_period.stop },
    scenes := (sortByKey pd.scenes).map (fun kv => sceneModelOfData kv.2) }

theorem createPhaseModel_default (pd : PhaseData) :
    createPhaseModel pd false false = .ok (phaseModelOfData pd) := by
  unfold createPhaseModel
  rw [mapM_ok _ (fun kv => sceneModelOfData kv.2)
    (fun kv => createSceneModel_default kv.2) (sortByKey pd.scenes)]
  rfl

theorem buildProjectStructure_default (proj : Project) (phases : PhasesDict) :
    buildProjectStructure proj phases false false =
      .ok { proj with phases := proj.phases ++
              (sortByKey phases).map (fun kv => phaseModelOfData kv.2) } := by
  unfold buildProjectStructure
  rw [mapM_ok _ (fun kv => phaseModelOfData kv.2)
    (fun kv => createPhaseModel_default kv.2) (sortByKey phases)]

theorem pairwise_and {α : Type} {R S : α → α → Prop} :
    ∀ {l : List α}, l.Pairwise R → l.Pairwise S →
      l.Pairwise fun a b => R a b ∧ S a b
  | [], _, _ => List.Pairwise.nil
  | _ :: _, List.Pairwise.cons h1 t1, List.Pairwise.cons h2 t2 =>
    List.Pairwise.cons (fun b hb => ⟨h1 b hb, h2 b hb⟩) (pairwise_and t1 t2)

/-- Sorting an insertion-ordered dict with distinct keys yields strictly
increasing keys. -/
theorem sortByKey_key_pairwise {α : Type} (l : List (Int × α))
    (h : (l.map Prod.fst).Nodup) :
    List.Pairwise (· < ·) ((sortByKey l).map Prod.fst) := by
  haveI ht : IsTotal (Int × α) (fun a b => a.1 ≤ b.1) := ⟨fun a b => Int.le_total a.1 b.1⟩
  haveI htr : IsTrans (Int × α) (fun a b => a.1 ≤ b.1) :=
    ⟨fun a b c hab hbc => le_trans hab hbc⟩
  have hs : List.Pairwise (fun a b : Int × α => a.1 ≤ b.1) (sortByKey l) :=
    List.sorted_insertionSort _ l
  have hperm : List.Perm (sortByKey l) l := List.perm_insertionSort _ l
  have hne : List.Pairwise (fun a b : Int × α => a.1 ≠ b.1) (sortByKey l) := by
    have h1 : List.Pairwise (fun a b : Int × α => a.1 ≠ b.1) l := List.pairwise_map.mp h
    exact (hperm.pairwise_iff (fun hab => hab.symm)).mpr h1
  rw [List.pairwise_map]
  exact (pairwise_and hs hne).imp (fun hab => lt_of_le_of_ne hab.1 hab.2)

/-- C6: the materialized Document lists Groups in strictly ascending key
order, the Subgroups within each Group in strictly ascending key order,
and the Leaves within each Subgroup in the stored append order (which is
row-arrival order). -/
theorem c6_materializer_ordering (phases : PhasesDict) (proj doc : Project)
    (hpn : ∀ kv ∈ phases, (kv.2 : PhaseData).phase_number = kv.1)
    (hsn : ∀ kv ∈ phases, ∀ cs ∈ (kv.2 : PhaseData).scenes,
      (cs.2 : SceneData).scene_number = cs.1)
    (hnd : (phases.map Prod.fst).Nodup)
    (hnd2 : ∀ kv ∈ phases, (((kv.2 : PhaseData).scenes).map Prod.fst).Nodup)
    (hproj : proj.phases = [])
    (hbuild : buildProjectStructure proj phases false false = .ok doc) :
    List.Pairwise (· < ·) (doc.phases.map Phase.phase_number) ∧
    (∀ ph ∈ doc.phases, List.Pairwise (· < ·) (ph.scenes.map Scene.scene_number)) ∧
    (∀ p pd, lookupKey phases p = some pd → ∀ c sc, lookupKey pd.scenes c = some sc →
      ∃ ph ∈ doc.phases, ph.phase_number = p ∧
        ∃ scm ∈ ph.scenes, scm.scene_number = c ∧
          scm.shots.map Shot.shot_number = sc.shots.map ShotData.shot_number) := by
  rw [buildProjectStructure_default proj phases] at hbuild
  injection hbuild with hdoc
  have hphases : doc.phases = (sortByKey phases).map (fun kv => phaseModelOfData kv.2) := by
    rw [← hdoc, hproj]
    rfl
  refine ⟨?_, ?_, ?_⟩
  · have h1 : doc.phases.map Phase.phase_number = (sortByKey phases).map Prod.fst := by
      rw [hphases, List.map_map]
      refine List.map_congr_left (fun kv hkv => ?_)
      have hmem : kv ∈ phases := (List.perm_insertionSort _ phases).mem_iff.mp hkv
      exact hpn kv hmem
    rw [h1]
    exact sortByKey_key_pairwise phases hnd
  · intro ph hph
    rw [hphases] at hph
    obtain ⟨kv, hkv, rfl⟩ := List.mem_map.mp hph
    have hmem : kv ∈ phases := (List.perm_insertionSort _ phases).mem_iff.mp hkv
    have h1 : (phaseModelOfData kv.2).scenes.map Scene.scene_number =
        (sortByKey kv.2.scenes).map Prod.fst := by
      show ((sortByKey kv.2.scenes).map (fun cs => sceneModelOfData cs.2)).map
        Scene.scene_number = _
      rw [List.map_map]
      refine List.map_congr_left (fun cs hcs => ?_)
      have hmem2 : cs ∈ kv.2.scenes := (List.perm_insertionSort _ kv.2.scenes).mem_iff.mp hcs
      exact hsn kv hmem cs hmem2
    rw [h1]
    exact sortByKey_key_pairwise kv.2.scenes (hnd2 kv hmem)
  · intro p pd hpd c sc hsc
    have hm1 : (p, pd) ∈ phases := lookupKey_some_mem _ _ _ hpd
    have hm1' : (p, pd) ∈ sortByKey phases :=
      (List.perm_insertionSort _ phases).mem_iff.mpr hm1
    refine ⟨phaseModelOfData pd, ?_, ?_, ?_⟩
    · rw [hphases]
      exact List.mem_map_of_mem (fun kv => phaseModelOfData kv.2) hm1'
    · exact hpn (p, pd) hm1
    · have hm2 : (c, sc) ∈ pd.scenes := lookupKey_some_mem _ _ _ hsc
      have hm2' : (c, sc) ∈ sortByKey pd.scenes :=
        (List.perm_insertionSort _ pd.scenes).mem_iff.mpr hm2
      refine ⟨sceneModelOfData sc, ?_, ?_, ?_⟩
      · exact List.mem_map_of_mem (fun cs => sceneModelOfData cs.2) hm2'
      · exact hsn (p, pd) hm1 (c, sc) hm2
      · show (sc.shots.map shotModelOfData).map Shot.shot_number = _
        rw [List.map_map]
        exact List.map_congr_left (fun sd _ => rfl)

/-- A bare scene dict with a given key. -/
def sceneB (k : Int) : SceneData :=
  { scene_number := k, comment := none, period := none, season := none,
    weather := none, loc_type := none, location_name := none, diurnal := none,
    light_source := none, shots := [] }

/-- A phase dict whose scenes appear in descending key order. -/
def phaseB (k : Int) : PhaseData :=
  { phase_number := k, time_period := { start := none, stop := none },
    scenes := [(2, sceneB 2), (1, sceneB 1)] }

/-- An intermediate tree whose phases appear in descending key order. -/
def phasesB : PhasesDict := [(2, phaseB 2), (1, phaseB 1)]

/-- C6 witness: materializing a tree whose keys arrived in descending
order yields strictly ascending phase and scene orders. -/
theorem c6_materializer_ordering_witness :
    ∃ doc, buildProjectStructure { title := "T", total_shots := 0, phases := [] }
        phasesB false false = .ok doc ∧
      List.Pairwise (· < ·) (doc.phases.map Phase.phase_number) ∧
      ∀ ph ∈ doc.phases, List.Pairwise (· < ·) (ph.scenes.map Scene.scene_number) := by
  rcases hb : buildProjectStructure { title := "T", total_shots := 0, phases := [] }
      phasesB false false with e | doc
  · exact absurd hb (by
      intro hc
      rw [show buildProjectStructure { title := "T", total_shots := 0, phases := [] }
          phasesB false false =
        .ok ((buildProjectStructure { title := "T", total_shots := 0, phases := [] }
          phasesB false false).toOption.get (by rfl)) from rfl] at hc
      cases hc)
  · have h := c6_materializer_ordering phasesB _ doc (by decide) (by decide)
      (by decide) (by decide) rfl hb
    exact ⟨doc, rfl, h.1, h.2.1⟩

end TsvToYaml
